import Mathlib

/-!
Verification development for the beautiful-gradient MCP server
(`beautiful_gradient_mcp/main.py`).

The Python source is shallowly embedded: every external effect (the JWT
verification network call, the ambient `get_access_token()` lookup, the
database connection, the widget-file read, the Stytch session exchange)
is threaded through as an explicit outcome parameter of type
`Except PyErr _` or `Option _`, and the handler bodies are translated
statement by statement.  Python truthiness (`if not x`) is modelled by
`pyFalsy`, Python `dict.get` by association-list lookup, a raised
exception by `Except.error`, and a `try/finally` around the database
connection by emitting an explicit acquire/release event trace.
-/

/-- A JSON-like Python value, as found in a parsed JWT claims dict or in
the `arguments` dict of an MCP tool call. -/
inductive JVal where
  | null : JVal
  | bool : Bool → JVal
  | int : Int → JVal
  | str : String → JVal
  | arr : List JVal → JVal
  | obj : List (String × JVal) → JVal
deriving Repr

/-- Python truthiness test: `None`, `False`, `0`, `""`, `[]`, `{}` are falsy. -/
def pyFalsy : JVal → Bool
  | .null => true
  | .bool b => !b
  | .int n => n == 0
  | .str s => s == ""
  | .arr xs => xs.isEmpty
  | .obj fs => fs.isEmpty

/-- Truthiness of an optional value (`dict.get` returning `None` on a
missing key is falsy). -/
def optFalsy : Option JVal → Bool
  | none => true
  | some v => pyFalsy v

/-- A Python dict with string keys, as an association list (first
binding wins on lookup, mirroring a dict's unique keys). -/
def PyDict : Type := List (String × JVal)

/-- `d.get(k)` / `k in d`: first binding for the key, if any. -/
def lookupField (d : PyDict) (k : String) : Option JVal :=
  match d with
  | [] => none
  | (k', v) :: rest => if k' = k then some v else lookupField rest k

/-- A raised Python exception, by kind and message. -/
inductive PyErr where
  | typeError : String → PyErr
  | exc : String → PyErr
deriving Repr, DecidableEq

/-- The message attached to an exception (`str(e)`). -/
def pyErrMsg : PyErr → String
  | .typeError m => m
  | .exc m => m

/-- Worker for `pySplit`: walk the characters, accumulating the current
word (reversed); whitespace closes the word, empty words are dropped. -/
def pySplitAux : List Char → List Char → List String
  | [], cur => if cur = [] then [] else [⟨cur.reverse⟩]
  | c :: cs, cur =>
    if c.isWhitespace then
      (if cur = [] then pySplitAux cs [] else ⟨cur.reverse⟩ :: pySplitAux cs [])
    else pySplitAux cs (c :: cur)

/-- Python `str.split()` with no argument: split on runs of whitespace,
discarding empty pieces. -/
def pySplit (s : String) : List String :=
  pySplitAux s.data []

/-- JWT claims as returned by `auth.verify_jwt_token`. -/
def Claims : Type := PyDict

/-- `StytchAccessToken` (main.py lines 49-52): an `AccessToken` extended
with the JWT subject and the full claims dict.  Pydantic requires
`token`, `client_id`, `subject` to be strings and `scopes` a list of
strings. -/
structure StytchAccessToken where
  token : String
  client_id : String
  subject : String
  scopes : List String
  claims : Claims

/-- main.py line 86: `jwt_claims.get("scope", "").split() if "scope" in
jwt_claims else []`.  When the claim is present but its value is not a
string, `.split()` raises `AttributeError`. -/
def scopesOfE (claims : Claims) : Except PyErr (List String) :=
  match lookupField claims "scope" with
  | none => .ok []
  | some (.str s) => .ok (pySplit s)
  | some _ => .error (.exc "AttributeError: split")

/-- main.py line 77: `jwt_claims.get("azp", jwt_claims.get("client_id", ""))`
— presence of the key decides, `azp` first. -/
def clientValue (claims : Claims) : JVal :=
  ((lookupField claims "azp").getD ((lookupField claims "client_id").getD (.str "")))

/-- `StytchVerifier.verify_token` (main.py lines 59-99).  The outcome of
the `verify_jwt_token` network call is the `jwtResult` parameter: an
exception there, or anywhere in the body, is caught by the outer
`except` and yields `none`.  The subject is rejected when falsy; the
pydantic construction of `StytchAccessToken` rejects a non-string
subject or client id (caught, yielding `none`). -/
def verifyToken (jwtResult : Except PyErr Claims) (token : String) :
    Option StytchAccessToken :=
  match jwtResult with
  | .error _ => none
  | .ok claims =>
    let subjectV := lookupField claims "sub"
    let clientV := clientValue claims
    if optFalsy subjectV then none
    else
      match scopesOfE claims with
      | .error _ => none
      | .ok scopes =>
        match subjectV, clientV with
        | some (.str s), .str c =>
          some { token := token, client_id := c, subject := s,
                 scopes := scopes, claims := claims }
        | _, _ => none

example : verifyToken (.ok [("sub", .str "user-1")]) "tk"
    = some { token := "tk", client_id := "", subject := "user-1",
             scopes := [], claims := [("sub", .str "user-1")] } := rfl

example : verifyToken (.ok [("aud", .str "x")]) "tk" = none := rfl

example : verifyToken (.ok [("sub", .str "")]) "tk" = none := rfl

example : verifyToken (.ok [("sub", .str "u"), ("scope", .str "openid  profile")]) "tk"
    = some { token := "tk", client_id := "", subject := "u",
             scopes := ["openid", "profile"],
             claims := [("sub", .str "u"), ("scope", .str "openid  profile")] } := rfl

/-- A row of the `profiles` table (`database.Profile`): the social
columns are nullable strings. -/
structure Profile where
  twitter_handle : Option String
  display_name : Option String
  avatar_url : Option String

/-- The `twitter_data` dict built by `handle_create_gradient_tweet`
(main.py lines 346-358). -/
structure TwitterData where
  handle : String
  name : String
  avatar : String
deriving DecidableEq

/-- Python `x or d` for an optional-string field: `None` and `""` are
falsy and yield the default. -/
def pyOrStr (v : Option String) (d : String) : String :=
  match v with
  | none => d
  | some s => if s = "" then d else s

/-- Default avatar URL used by main.py lines 349, 357, 368. -/
def DEFAULT_AVATAR : String :=
  "https://abs.twimg.com/sticky/default_profile_images/default_profile_400x400.png"

/-- The default identity (main.py lines 353-358 and 365-369). -/
def defaultTwitterData : TwitterData :=
  { handle := "twitter_user", name := "Twitter User", avatar := DEFAULT_AVATAR }

/-- main.py lines 346-350: per-field `or`-fallback over a stored profile. -/
def twitterDataOfProfile (p : Profile) : TwitterData :=
  { handle := pyOrStr p.twitter_handle "twitter_user",
    name := pyOrStr p.display_name "Twitter User",
    avatar := pyOrStr p.avatar_url DEFAULT_AVATAR }

/-- A database-connection lifecycle event: `get_db()` acquires,
`db.close()` releases. -/
inductive DbEvent where
  | acquire : DbEvent
  | release : DbEvent
deriving DecidableEq, Repr

/-- A gradient preset (`gradients.GRADIENTS` entry); only the name is
consumed by main.py. -/
structure Gradient where
  name : String

/-- Modelled from the spec: the static palette `gradients.GRADIENTS` is
not under src; the spec (§6 `/api/gradients`, tool schema "Gradient
preset index (0-24)") fixes it at 25 entries. -/
def GRADIENTS : List Gradient :=
  (List.range 25).map (fun i => { name := s!"gradient-{i}" })

/-- The profile-lookup and personalization section of
`handle_create_gradient_tweet` (main.py lines 321-369).  `tokenResult`
is the outcome of `get_access_token()` and `dbLookup` the outcome of
`get_profile_by_user_id` once a connection is held; the whole section
sits in a `try/except` whose handler falls back to the default
identity, and the connection sits in a `try/finally` that closes it on
every path.  Returns the chosen `twitter_data` and the connection event
trace. -/
def profileSection (tokenResult : Except PyErr (Option StytchAccessToken))
    (dbLookup : Except PyErr (Option Profile)) : TwitterData × List DbEvent :=
  match tokenResult with
  | .error _ => (defaultTwitterData, [])
  | .ok none => (defaultTwitterData, [])
  | .ok (some tok) =>
    if tok.subject = "" then (defaultTwitterData, [])
    else
      match dbLookup with
      | .error _ => (defaultTwitterData, [.acquire, .release])
      | .ok none => (defaultTwitterData, [.acquire, .release])
      | .ok (some p) => (twitterDataOfProfile p, [.acquire, .release])

/-- The structured content of a tool result: either the profile payload
of `get-my-profile` (main.py lines 259-264) or the widget payload of
`create-gradient-tweet` (main.py lines 372-379, 440-444). -/
inductive StructuredContent where
  | profileData (user_id : String) (client_id : String)
      (scopes : List String) (jwt_claims : Claims) : StructuredContent
  | tweet (tweetContent : JVal) (gradientIndex : Int) (gradientName : String)
      (profile : TwitterData) (widget_html : Option String) : StructuredContent

/-- `types.CallToolResult`: text contents, optional structured content,
and the error flag (defaulting to false). -/
structure CallToolResult where
  content : List String
  structuredContent : Option StructuredContent
  isError : Bool

/-- Python `int`-comparable check: `0 <= x < n` works for `int` and
`bool` (a bool compares as 0/1) and raises `TypeError` otherwise. -/
def pyIntLike : JVal → Option Int
  | .int n => some n
  | .bool b => some (if b then 1 else 0)
  | _ => none

/-- The raw `gradientIndex` argument (main.py line 312):
`arguments.get("gradientIndex", 0)`. -/
def rawGradientArg (arguments : PyDict) : JVal :=
  (lookupField arguments "gradientIndex").getD (.int 0)

/-- main.py lines 315-316: `if not 0 <= gradient_index < len(GRADIENTS):
gradient_index = 0`. -/
def clampGradientIndex (n : Int) : Int :=
  if 0 ≤ n ∧ n < (GRADIENTS.length : Int) then n else 0

/-- The `arguments` dict has an absent or int-comparable
`gradientIndex`, so the range check on it cannot raise. -/
def gradientIndexArgOk (arguments : PyDict) : Bool :=
  (pyIntLike (rawGradientArg arguments)).isSome

/-- Fallback widget HTML (main.py line 392). -/
def WIDGET_FALLBACK : String := "<p>Widget HTML not available</p>"

/-- The successful result of `handle_create_gradient_tweet`
(main.py lines 318-453), given the int value `gi0` of the raw gradient
index: clamp the index, pick the gradient, run the guarded profile
lookup, read the widget HTML with its fallback, and assemble the
non-error `CallToolResult`. -/
def tweetResult (arguments : PyDict)
    (tokenResult : Except PyErr (Option StytchAccessToken))
    (dbLookup : Except PyErr (Option Profile))
    (widgetRead : Except PyErr String) (gi0 : Int) : CallToolResult :=
  let tweet_content := (lookupField arguments "tweetContent").getD (.str "")
  let gradient_index := clampGradientIndex gi0
  let gradient := GRADIENTS.getD gradient_index.toNat { name := "" }
  let twitter_data := (profileSection tokenResult dbLookup).1
  let widget_html := match widgetRead with
    | .ok s => s
    | .error _ => WIDGET_FALLBACK
  let text_response := s!"Created gradient tweet with {gradient.name} gradient!"
  let includeWidget := widget_html ≠ "" ∧ widget_html ≠ WIDGET_FALLBACK
  { content := [text_response] ++ (if includeWidget then [widget_html] else []),
    structuredContent :=
      some (.tweet tweet_content gradient_index gradient.name twitter_data
        (if includeWidget then some widget_html else none)),
    isError := false }

/-- `handle_create_gradient_tweet` (main.py lines 304-453).  The range
check on a non-int-comparable `gradientIndex` raises a `TypeError`
outside any `try`, which escapes the handler; everything after it
returns a non-error result.  `widgetRead` is the outcome of reading the
widget HTML file. -/
def handleCreateGradientTweet (arguments : PyDict)
    (tokenResult : Except PyErr (Option StytchAccessToken))
    (dbLookup : Except PyErr (Option Profile))
    (widgetRead : Except PyErr String) : Except PyErr CallToolResult :=
  match pyIntLike (rawGradientArg arguments) with
  | none => .error (.typeError "comparison not supported between int and non-int")
  | some gi0 => .ok (tweetResult arguments tokenResult dbLookup widgetRead gi0)

/-- The scopes line of the `get-my-profile` text response (main.py
line 273). -/
def scopesText (scopes : List String) : String :=
  if scopes.isEmpty then "none" else String.intercalate ", " scopes

/-- The text response of `get-my-profile` (main.py lines 270-274),
mentioning the subject, client id, scopes and the claim count. -/
def profileText (tok : StytchAccessToken) : String :=
  "Profile Information:\n- User ID: " ++ tok.subject
    ++ "\n- Client ID: " ++ tok.client_id
    ++ "\n- Scopes: " ++ scopesText tok.scopes
    ++ "\n- JWT Claims: " ++ toString tok.claims.length ++ " claims present"

/-- The authentication-required message (main.py line 245). -/
def AUTH_REQUIRED_MSG : String :=
  "Authentication required. Please connect your account first."

/-- `handle_get_my_profile` (main.py lines 228-301): the whole body is
wrapped in `try/except`, so it always returns a result; a missing
access token yields an error-flagged result with the
authentication-required message and no structured content. -/
def handleGetMyProfile (tokenResult : Except PyErr (Option StytchAccessToken)) :
    CallToolResult :=
  match tokenResult with
  | .ok none =>
    { content := [AUTH_REQUIRED_MSG], structuredContent := none, isError := true }
  | .ok (some tok) =>
    { content := [profileText tok],
      structuredContent :=
        some (.profileData tok.subject tok.client_id tok.scopes tok.claims),
      isError := false }
  | .error e =>
    { content := ["Failed to retrieve profile: " ++ pyErrMsg e],
      structuredContent := none, isError := true }

/-- `_call_tool` (main.py lines 196-225): route by tool name; an unknown
name yields an error-flagged result.  Nothing here catches an exception
raised by a handler. -/
def callTool (name : String) (arguments : PyDict)
    (tokenResult : Except PyErr (Option StytchAccessToken))
    (dbLookup : Except PyErr (Option Profile))
    (widgetRead : Except PyErr String) : Except PyErr CallToolResult :=
  if name = "get-my-profile" then
    .ok (handleGetMyProfile tokenResult)
  else if name = "create-gradient-tweet" then
    handleCreateGradientTweet arguments tokenResult dbLookup widgetRead
  else
    .ok { content := [s!"Unknown tool: {name}"], structuredContent := none,
          isError := true }

/-- Modelled from the spec: the ExternalProfile extracted by
`auth.extract_twitter_profile` (not under src) — the linked Twitter
identity's external id, handle, display name and avatar (§3, §4.2). -/
structure TwitterProfile where
  externalUserId : String
  handle : Option String
  displayName : Option String
  avatarUrl : Option String

/-- A `starlette JSONResponse` as built by the REST handlers: status
code (200 by default), the `success` flag, the `message`, and the
optional `profile` payload `(twitter_handle, display_name)`. -/
structure JsonResponse where
  status : Nat
  success : Bool
  message : String
  profile : Option (Option String × Option String)

/-- `save_profile` — `POST /api/save-profile` (main.py lines 482-554).
`sessionToken` is `data.get("session_token")` from the parsed body;
`exchangeResult` collapses `verify_stytch_session_token` followed by
`extract_twitter_profile` (`.error` = the Stytch call raised, `.ok none`
= no linked Twitter identity in the response); `storeResult` is the
outcome of `get_or_create_profile` on a held connection.  The
connection is acquired only on the store path and closed in a
`finally`; any exception is caught by the outer `except` into a 500
response.  Returns the response and the connection event trace. -/
def saveProfile (sessionToken : Option JVal)
    (exchangeResult : Except PyErr (Option TwitterProfile))
    (storeResult : Except PyErr (Option Profile)) :
    JsonResponse × List DbEvent :=
  if optFalsy sessionToken then
    ({ status := 400, success := false, message := "session_token required",
       profile := none }, [])
  else
    match exchangeResult with
    | .error e =>
      ({ status := 500, success := false, message := "Error: " ++ pyErrMsg e,
         profile := none }, [])
    | .ok none =>
      ({ status := 400, success := false, message := "No Twitter profile found",
         profile := none }, [])
    | .ok (some _) =>
      match storeResult with
      | .error e =>
        ({ status := 500, success := false, message := "Error: " ++ pyErrMsg e,
           profile := none }, [.acquire, .release])
      | .ok none =>
        ({ status := 500, success := false, message := "Failed to save profile",
           profile := none }, [.acquire, .release])
      | .ok (some p) =>
        ({ status := 200, success := true, message := "Profile saved successfully",
           profile := some (p.twitter_handle, p.display_name) },
         [.acquire, .release])

/-- Extract the gradient index carried in a tool result's structured
content, if any. -/
def resultGradientIndex : Except PyErr CallToolResult → Option Int
  | .ok r =>
    match r.structuredContent with
    | some (.tweet _ gi _ _ _) => some gi
    | _ => none
  | .error _ => none

/-- Extract the profile identity carried in a tool result's structured
content, if any. -/
def resultProfile : Except PyErr CallToolResult → Option TwitterData
  | .ok r =>
    match r.structuredContent with
    | some (.tweet _ _ _ td _) => some td
    | _ => none
  | .error _ => none

/-- Whether an `Except` outcome is a normal return (no exception). -/
def isOkB {α : Type} : Except PyErr α → Bool
  | .ok _ => true
  | .error _ => false

/-- Extract the error flag of a tool result, when no exception escaped. -/
def resultIsError : Except PyErr CallToolResult → Option Bool
  | .ok r => some r.isError
  | .error _ => none

/-- Concrete stored profile with an empty handle and a missing display
name, used to exercise the per-field fallback. -/
def profileW : Profile :=
  { twitter_handle := some "", display_name := none,
    avatar_url := some "http://a/b.png" }

/-- Concrete principal used to exercise the authenticated paths. -/
def tokW : StytchAccessToken :=
  { token := "t", client_id := "", subject := "u", scopes := [], claims := [] }

/-- Helper: with an int-comparable gradient index the tweet handler
returns normally with the assembled result. -/
theorem handleCGT_eq_ok (arguments : PyDict)
    (tokR : Except PyErr (Option StytchAccessToken))
    (dbL : Except PyErr (Option Profile)) (w : Except PyErr String) (gi0 : Int)
    (h : pyIntLike (rawGradientArg arguments) = some gi0) :
    handleCreateGradientTweet arguments tokR dbL w
      = .ok (tweetResult arguments tokR dbL w gi0) := by
  unfold handleCreateGradientTweet
  rw [h]

/-- Helper: an out-of-range index is clamped to 0. -/
theorem clampGradientIndex_out (n : Int)
    (h : n < 0 ∨ (GRADIENTS.length : Int) ≤ n) : clampGradientIndex n = 0 := by
  have hlen : GRADIENTS.length = 25 := rfl
  rw [hlen] at h
  simp only [clampGradientIndex, hlen]
  rw [if_neg (by omega)]

/-- Helper: an in-range index is kept. -/
theorem clampGradientIndex_in (n : Int) (h0 : 0 ≤ n)
    (h1 : n < (GRADIENTS.length : Int)) : clampGradientIndex n = n := by
  have hlen : GRADIENTS.length = 25 := rfl
  rw [hlen] at h1
  simp only [clampGradientIndex, hlen]
  rw [if_pos (by omega)]

/-- Helper: every lookup-failure shape collapses to the default
identity. -/
theorem profileSection_default (tokR : Except PyErr (Option StytchAccessToken))
    (dbL : Except PyErr (Option Profile))
    (h : tokR = .ok none ∨ (∃ e, tokR = .error e)
      ∨ ∃ tok, tokR = .ok (some tok) ∧ (dbL = .ok none ∨ ∃ e, dbL = .error e)) :
    (profileSection tokR dbL).1 = defaultTwitterData := by
  rcases h with rfl | ⟨e, rfl⟩ | ⟨tok, rfl, hdb⟩
  · rfl
  · rfl
  · by_cases hs : tok.subject = ""
    · simp [profileSection, hs]
    · rcases hdb with rfl | ⟨e, rfl⟩ <;> simp [profileSection, hs]

/-- Claim C1: for every token, `verify_token` either returns a principal
whose subject is non-empty or the explicit failure value `none`; a
missing `sub` claim is a verification failure, not a crash. -/
theorem verify_token_subject_nonempty :
    (∀ (r : Except PyErr Claims) (t : String) (tok : StytchAccessToken),
        verifyToken r t = some tok → tok.subject ≠ "") ∧
    (∀ (claims : Claims) (t : String),
        lookupField claims "sub" = none → verifyToken (.ok claims) t = none) := by
  constructor
  · intro r t tok h
    cases r with
    | error e => simp [verifyToken] at h
    | ok claims =>
      simp only [verifyToken] at h
      cases hs : lookupField claims "sub" with
      | none => rw [hs] at h; simp [optFalsy] at h
      | some v =>
        rw [hs] at h
        by_cases hf : pyFalsy v = true
        · simp [optFalsy, hf] at h
        · rw [show optFalsy (some v) = pyFalsy v from rfl, if_neg (by simp [hf])] at h
          cases hsc : scopesOfE claims with
          | error e => rw [hsc] at h; simp at h
          | ok scopes =>
            rw [hsc] at h
            cases hc : clientValue claims <;> rw [hc] at h <;> cases v <;>
              (try injection h with h) <;> (try subst h) <;> simp_all [pyFalsy]
  · intro claims t hnone
    unfold verifyToken
    simp [hnone, optFalsy]

/-- Witness for C1 at a concrete token outcome. -/
theorem verify_token_subject_nonempty_witness :
    ({ token := "tk", client_id := "", subject := "user-1", scopes := [],
       claims := [("sub", JVal.str "user-1")] } : StytchAccessToken).subject ≠ ""
      ∧ verifyToken (.ok [("aud", JVal.str "x")]) "tk" = none :=
  ⟨verify_token_subject_nonempty.1 (.ok [("sub", JVal.str "user-1")]) "tk" _ rfl,
   verify_token_subject_nonempty.2 [("aud", JVal.str "x")] "tk" rfl⟩

/-- Shared success lemma: with a non-empty string subject, a string
client value and a well-typed scope claim, `verify_token` returns the
assembled principal. -/
theorem verifyToken_ok (claims : Claims) (t s : String) (scs : List String)
    (hsub : lookupField claims "sub" = some (JVal.str s)) (hs : s ≠ "")
    (hsc : scopesOfE claims = .ok scs) (c : String)
    (hc : clientValue claims = JVal.str c) :
    verifyToken (.ok claims) t =
      some { token := t, client_id := c, subject := s, scopes := scs,
             claims := claims } := by
  simp [verifyToken, hsub, hsc, hc, optFalsy, pyFalsy, hs]

/-- Claim C6: the principal's client id is read from `azp` first, then
`client_id`; with neither claim present the client id is the empty
string and verification still succeeds. -/
theorem client_id_claim_preference :
    ∀ (claims : Claims) (t s : String) (scs : List String),
      lookupField claims "sub" = some (JVal.str s) → s ≠ "" →
      scopesOfE claims = .ok scs →
      ((∀ c : String, lookupField claims "azp" = some (JVal.str c) →
          (verifyToken (.ok claims) t).map (fun tok => tok.client_id) = some c) ∧
       (lookupField claims "azp" = none →
          (∀ c : String, lookupField claims "client_id" = some (JVal.str c) →
             (verifyToken (.ok claims) t).map (fun tok => tok.client_id) = some c) ∧
          (lookupField claims "client_id" = none →
             (verifyToken (.ok claims) t).map (fun tok => tok.client_id) = some ""))) := by
  intro claims t s scs hsub hs hsc
  refine ⟨?_, ?_⟩
  · intro c hazp
    rw [verifyToken_ok claims t s scs hsub hs hsc c (by simp [clientValue, hazp])]
    rfl
  · intro hazp
    refine ⟨?_, ?_⟩
    · intro c hcid
      rw [verifyToken_ok claims t s scs hsub hs hsc c
        (by simp [clientValue, hazp, hcid])]
      rfl
    · intro hcid
      rw [verifyToken_ok claims t s scs hsub hs hsc ""
        (by simp [clientValue, hazp, hcid])]
      rfl

/-- Witness for C6: `azp` wins over `client_id` on a concrete token. -/
theorem client_id_claim_preference_witness :
    (verifyToken (.ok [("sub", JVal.str "u"), ("azp", JVal.str "appA"),
        ("client_id", JVal.str "appB")]) "tk").map (fun tok => tok.client_id)
      = some "appA" :=
  (client_id_claim_preference
      [("sub", JVal.str "u"), ("azp", JVal.str "appA"), ("client_id", JVal.str "appB")]
      "tk" "u" [] rfl (by decide) rfl).1 "appA" rfl

/-- Claim C7: a present scope claim is split on whitespace into the
principal's scopes; an absent scope claim yields the empty scope set. -/
theorem scope_claim_split :
    ∀ (claims : Claims) (t s c : String),
      lookupField claims "sub" = some (JVal.str s) → s ≠ "" →
      clientValue claims = JVal.str c →
      ((∀ v : String, lookupField claims "scope" = some (JVal.str v) →
          (verifyToken (.ok claims) t).map (fun tok => tok.scopes)
            = some (pySplit v)) ∧
       (lookupField claims "scope" = none →
          (verifyToken (.ok claims) t).map (fun tok => tok.scopes)
            = some ([] : List String))) := by
  intro claims t s c hsub hs hc
  refine ⟨?_, ?_⟩
  · intro v hscope
    rw [verifyToken_ok claims t s (pySplit v) hsub hs
      (by simp [scopesOfE, hscope]) c hc]
    rfl
  · intro hscope
    rw [verifyToken_ok claims t s [] hsub hs (by simp [scopesOfE, hscope]) c hc]
    rfl

/-- Witness for C7 on a concrete two-scope token and a scopeless token. -/
theorem scope_claim_split_witness :
    (verifyToken (.ok [("sub", JVal.str "u"), ("scope", JVal.str "openid profile")])
        "tk").map (fun tok => tok.scopes) = some ["openid", "profile"]
      ∧ (verifyToken (.ok [("sub", JVal.str "u")]) "tk").map (fun tok => tok.scopes)
        = some ([] : List String) :=
  ⟨((scope_claim_split [("sub", JVal.str "u"), ("scope", JVal.str "openid profile")]
      "tk" "u" "" rfl (by decide) rfl).1 "openid profile" rfl).trans (by rfl),
   (scope_claim_split [("sub", JVal.str "u")] "tk" "u" "" rfl (by decide) rfl).2 rfl⟩

/-- Claim C5: `get-my-profile` without a principal yields an
error-flagged result carrying the authentication-required message and
no structured content; with a principal it returns the subject, client
id, scopes and claim count plus the human-readable summary. -/
theorem get_my_profile_requires_auth :
    ((handleGetMyProfile (.ok none)).isError = true
      ∧ (handleGetMyProfile (.ok none)).structuredContent = none
      ∧ (handleGetMyProfile (.ok none)).content = [AUTH_REQUIRED_MSG])
    ∧ ∀ tok : StytchAccessToken,
        (handleGetMyProfile (.ok (some tok))).isError = false
        ∧ (handleGetMyProfile (.ok (some tok))).structuredContent
            = some (.profileData tok.subject tok.client_id tok.scopes tok.claims)
        ∧ (handleGetMyProfile (.ok (some tok))).content = [profileText tok] :=
  ⟨⟨rfl, rfl, rfl⟩, fun _ => ⟨rfl, rfl, rfl⟩⟩

/-- Claim C9: both database-touching operations emit a balanced
connection trace — the connection acquired by `get_db()` is released by
the `finally: db.close()` on every exit path. -/
theorem db_connection_released :
    ∀ (tokR : Except PyErr (Option StytchAccessToken))
      (dbL : Except PyErr (Option Profile)) (sT : Option JVal)
      (ex : Except PyErr (Option TwitterProfile))
      (st : Except PyErr (Option Profile)),
      ((profileSection tokR dbL).2 = []
        ∨ (profileSection tokR dbL).2 = [DbEvent.acquire, DbEvent.release])
      ∧ ((profileSection tokR dbL).2.count DbEvent.acquire
          = (profileSection tokR dbL).2.count DbEvent.release)
      ∧ ((saveProfile sT ex st).2 = []
        ∨ (saveProfile sT ex st).2 = [DbEvent.acquire, DbEvent.release])
      ∧ ((saveProfile sT ex st).2.count DbEvent.acquire
          = (saveProfile sT ex st).2.count DbEvent.release) := by
  intro tokR dbL sT ex st
  have h1 : (profileSection tokR dbL).2 = []
      ∨ (profileSection tokR dbL).2 = [DbEvent.acquire, DbEvent.release] := by
    cases tokR with
    | error e => left; rfl
    | ok o =>
      cases o with
      | none => left; rfl
      | some tok =>
        by_cases hs : tok.subject = ""
        · simp [profileSection, hs]
        · cases dbL with
          | error e => simp [profileSection, hs]
          | ok p => cases p <;> simp [profileSection, hs]
  have h2 : (saveProfile sT ex st).2 = []
      ∨ (saveProfile sT ex st).2 = [DbEvent.acquire, DbEvent.release] := by
    by_cases h : optFalsy sT = true
    · left; simp [saveProfile, h]
    · cases ex with
      | error e => simp [saveProfile, h]
      | ok o =>
        cases o with
        | none => simp [saveProfile, h]
        | some tp =>
          cases st with
          | error e => simp [saveProfile, h]
          | ok p => cases p <;> simp [saveProfile, h]
  refine ⟨h1, ?_, h2, ?_⟩
  · rcases h1 with h | h <;> rw [h] <;> rfl
  · rcases h2 with h | h <;> rw [h] <;> rfl

/-- Claim C8: `/api/save-profile` returns 400 with `success = false` on
a missing session token or an exchange with no linked Twitter profile,
500 with `success = false` when the store fails to save, and on success
`success = true` with the saved handle and display name. -/
theorem save_profile_status_contract :
    ∀ (ex : Except PyErr (Option TwitterProfile))
      (st : Except PyErr (Option Profile)) (tv : JVal) (tp : TwitterProfile)
      (p : Profile),
      ((saveProfile none ex st).1.status = 400
        ∧ (saveProfile none ex st).1.success = false)
      ∧ (pyFalsy tv = false →
          ((ex = .ok none →
              (saveProfile (some tv) ex st).1.status = 400
              ∧ (saveProfile (some tv) ex st).1.success = false)
           ∧ (ex = .ok (some tp) →
              ((∀ e, st = .error e →
                  (saveProfile (some tv) ex st).1.status = 500
                  ∧ (saveProfile (some tv) ex st).1.success = false)
               ∧ (st = .ok none →
                  (saveProfile (some tv) ex st).1.status = 500
                  ∧ (saveProfile (some tv) ex st).1.success = false)
               ∧ (st = .ok (some p) →
                  (saveProfile (some tv) ex st).1.status = 200
                  ∧ (saveProfile (some tv) ex st).1.success = true
                  ∧ (saveProfile (some tv) ex st).1.profile
                      = some (p.twitter_handle, p.display_name)))))) := by
  intro ex st tv tp p
  refine ⟨⟨rfl, rfl⟩, fun hfalsy => ⟨?_, ?_⟩⟩
  · rintro rfl
    constructor <;> simp [saveProfile, optFalsy, hfalsy]
  · rintro rfl
    refine ⟨?_, ?_, ?_⟩
    · rintro e rfl
      constructor <;> simp [saveProfile, optFalsy, hfalsy]
    · rintro rfl
      constructor <;> simp [saveProfile, optFalsy, hfalsy]
    · rintro rfl
      refine ⟨?_, ?_, ?_⟩ <;> simp [saveProfile, optFalsy, hfalsy]

/-- Witness for C8: the four response shapes at concrete inputs. -/
theorem save_profile_status_contract_witness :
    (saveProfile none (.ok none) (.ok none)).1.status = 400
    ∧ (saveProfile (some (.str "sess")) (.ok none) (.ok none)).1.status = 400
    ∧ (saveProfile (some (.str "sess"))
        (.ok (some { externalUserId := "u1", handle := some "alice",
                     displayName := some "Alice", avatarUrl := none }))
        (.ok none)).1.status = 500
    ∧ (saveProfile (some (.str "sess"))
        (.ok (some { externalUserId := "u1", handle := some "alice",
                     displayName := some "Alice", avatarUrl := none }))
        (.ok (some { twitter_handle := some "alice", display_name := some "Alice",
                     avatar_url := none }))).1.success = true :=
  ⟨(save_profile_status_contract (.ok none) (.ok none) (.str "sess")
      { externalUserId := "u1", handle := some "alice",
        displayName := some "Alice", avatarUrl := none }
      { twitter_handle := some "alice", display_name := some "Alice",
        avatar_url := none }).1.1,
   (((save_profile_status_contract (.ok none) (.ok none) (.str "sess")
      { externalUserId := "u1", handle := some "alice",
        displayName := some "Alice", avatarUrl := none }
      { twitter_handle := some "alice", display_name := some "Alice",
        avatar_url := none }).2 rfl).1 rfl).1,
   ((((save_profile_status_contract
      (.ok (some { externalUserId := "u1", handle := some "alice",
                   displayName := some "Alice", avatarUrl := none }))
      (.ok none) (.str "sess")
      { externalUserId := "u1", handle := some "alice",
        displayName := some "Alice", avatarUrl := none }
      { twitter_handle := some "alice", display_name := some "Alice",
        avatar_url := none }).2 rfl).2 rfl).2.1 rfl).1,
   ((((save_profile_status_contract
      (.ok (some { externalUserId := "u1", handle := some "alice",
                   displayName := some "Alice", avatarUrl := none }))
      (.ok (some { twitter_handle := some "alice", display_name := some "Alice",
                   avatar_url := none }))
      (.str "sess")
      { externalUserId := "u1", handle := some "alice",
        displayName := some "Alice", avatarUrl := none }
      { twitter_handle := some "alice", display_name := some "Alice",
        avatar_url := none }).2 rfl).2 rfl).2.2 rfl).2.1⟩

/-- Claim C3: `create-gradient-tweet` clamps an out-of-range or absent
`gradientIndex` to 0 without erroring, and keeps an in-range index in
`[0, paletteSize)` as given. -/
theorem gradient_index_clamped :
    ∀ (args : PyDict) (tokR : Except PyErr (Option StytchAccessToken))
      (dbL : Except PyErr (Option Profile)) (w : Except PyErr String) (n : Int),
      (lookupField args "gradientIndex" = some (JVal.int n) →
        ((n < 0 ∨ (GRADIENTS.length : Int) ≤ n →
            resultGradientIndex (handleCreateGradientTweet args tokR dbL w)
              = some 0)
         ∧ (0 ≤ n → n < (GRADIENTS.length : Int) →
            resultGradientIndex (handleCreateGradientTweet args tokR dbL w)
              = some n)
         ∧ resultIsError (handleCreateGradientTweet args tokR dbL w)
             = some false))
      ∧ (lookupField args "gradientIndex" = none →
          resultGradientIndex (handleCreateGradientTweet args tokR dbL w) = some 0
          ∧ resultIsError (handleCreateGradientTweet args tokR dbL w)
              = some false) := by
  intro args tokR dbL w n
  constructor
  · intro hlook
    have hraw : pyIntLike (rawGradientArg args) = some n := by
      simp [rawGradientArg, hlook, pyIntLike]
    rw [handleCGT_eq_ok args tokR dbL w n hraw]
    refine ⟨?_, ?_, rfl⟩
    · intro hout
      show some (clampGradientIndex n) = some 0
      rw [clampGradientIndex_out n hout]
    · intro h0 h1
      show some (clampGradientIndex n) = some n
      rw [clampGradientIndex_in n h0 h1]
  · intro hlook
    have hraw : pyIntLike (rawGradientArg args) = some 0 := by
      simp [rawGradientArg, hlook, pyIntLike]
    rw [handleCGT_eq_ok args tokR dbL w 0 hraw]
    exact ⟨rfl, rfl⟩

/-- Witness for C3: indices 999 and -1 clamp to 0, 7 is kept, and an
absent index yields 0, on concrete calls. -/
theorem gradient_index_clamped_witness :
    resultGradientIndex (handleCreateGradientTweet
        [("gradientIndex", JVal.int 999)] (.ok none) (.ok none)
        (.error (.exc "w"))) = some 0
    ∧ resultGradientIndex (handleCreateGradientTweet
        [("gradientIndex", JVal.int (-1))] (.ok none) (.ok none)
        (.error (.exc "w"))) = some 0
    ∧ resultGradientIndex (handleCreateGradientTweet
        [("gradientIndex", JVal.int 7)] (.ok none) (.ok none)
        (.error (.exc "w"))) = some 7
    ∧ resultGradientIndex (handleCreateGradientTweet [] (.ok none) (.ok none)
        (.error (.exc "w"))) = some 0 :=
  ⟨((gradient_index_clamped [("gradientIndex", JVal.int 999)] (.ok none) (.ok none)
      (.error (.exc "w")) 999).1 rfl).1 (Or.inr (by decide)),
   ((gradient_index_clamped [("gradientIndex", JVal.int (-1))] (.ok none) (.ok none)
      (.error (.exc "w")) (-1)).1 rfl).1 (Or.inl (by decide)),
   ((gradient_index_clamped [("gradientIndex", JVal.int 7)] (.ok none) (.ok none)
      (.error (.exc "w")) 7).1 rfl).2.1 (by decide) (by decide),
   ((gradient_index_clamped [] (.ok none) (.ok none)
      (.error (.exc "w")) 0).2 rfl).1⟩

/-- Claim C4: every profile-lookup failure (no principal, principal but
no stored profile, store error) yields a non-error tool result using the
fixed default identity with handle "twitter_user". -/
theorem create_tweet_lookup_failure_defaults :
    ∀ (args : PyDict) (tokR : Except PyErr (Option StytchAccessToken))
      (dbL : Except PyErr (Option Profile)) (w : Except PyErr String),
      gradientIndexArgOk args = true →
      (tokR = .ok none ∨ (∃ e, tokR = .error e)
        ∨ ∃ tok, tokR = .ok (some tok)
            ∧ (dbL = .ok none ∨ ∃ e, dbL = .error e)) →
      resultIsError (handleCreateGradientTweet args tokR dbL w) = some false
      ∧ resultProfile (handleCreateGradientTweet args tokR dbL w)
          = some defaultTwitterData
      ∧ defaultTwitterData.handle = "twitter_user" := by
  intro args tokR dbL w hgi hfail
  obtain ⟨gi0, h⟩ : ∃ g, pyIntLike (rawGradientArg args) = some g := by
    unfold gradientIndexArgOk at hgi
    exact Option.isSome_iff_exists.mp hgi
  rw [handleCGT_eq_ok args tokR dbL w gi0 h]
  refine ⟨rfl, ?_, rfl⟩
  show some (profileSection tokR dbL).1 = some defaultTwitterData
  rw [profileSection_default tokR dbL hfail]

/-- Witness for C4: a call with no principal succeeds with the default
identity. -/
theorem create_tweet_lookup_failure_defaults_witness :
    resultIsError (handleCreateGradientTweet [] (.ok none) (.ok none)
        (.error (.exc "no widget"))) = some false
    ∧ resultProfile (handleCreateGradientTweet [] (.ok none) (.ok none)
        (.error (.exc "no widget"))) = some defaultTwitterData :=
  ⟨(create_tweet_lookup_failure_defaults [] (.ok none) (.ok none)
      (.error (.exc "no widget")) rfl (Or.inl rfl)).1,
   (create_tweet_lookup_failure_defaults [] (.ok none) (.ok none)
      (.error (.exc "no widget")) rfl (Or.inl rfl)).2.1⟩

/-- Claim C10: the default-identity fallback is per field — any empty or
absent stored field is independently replaced by its default, so the
output identity never has an empty handle, name or avatar; a found
profile is rendered through exactly this per-field fallback. -/
theorem per_field_profile_fallback :
    ∀ (p : Profile) (args : PyDict) (w : Except PyErr String)
      (tok : StytchAccessToken),
      ((twitterDataOfProfile p).handle ≠ ""
        ∧ (twitterDataOfProfile p).name ≠ ""
        ∧ (twitterDataOfProfile p).avatar ≠ "")
      ∧ ((p.twitter_handle = none ∨ p.twitter_handle = some "" →
            (twitterDataOfProfile p).handle = "twitter_user")
        ∧ (p.display_name = none ∨ p.display_name = some "" →
            (twitterDataOfProfile p).name = "Twitter User")
        ∧ (p.avatar_url = none ∨ p.avatar_url = some "" →
            (twitterDataOfProfile p).avatar = DEFAULT_AVATAR))
      ∧ (gradientIndexArgOk args = true → tok.subject ≠ "" →
          resultProfile (handleCreateGradientTweet args (.ok (some tok))
            (.ok (some p)) w) = some (twitterDataOfProfile p)) := by
  intro p args w tok
  have hne : ∀ (v : Option String) (d : String), d ≠ "" → pyOrStr v d ≠ "" := by
    intro v d hd
    cases v with
    | none => simpa [pyOrStr] using hd
    | some s => by_cases hs : s = "" <;> simp [pyOrStr, hs, hd]
  have hdef : ∀ (v : Option String) (d : String),
      v = none ∨ v = some "" → pyOrStr v d = d := by
    rintro v d (rfl | rfl) <;> rfl
  refine ⟨⟨hne _ _ (by decide), hne _ _ (by decide), hne _ _ (by decide)⟩,
          ⟨hdef _ _, hdef _ _, hdef _ _⟩, ?_⟩
  intro hgi hsub
  obtain ⟨gi0, h⟩ : ∃ g, pyIntLike (rawGradientArg args) = some g := by
    unfold gradientIndexArgOk at hgi
    exact Option.isSome_iff_exists.mp hgi
  rw [handleCGT_eq_ok args (.ok (some tok)) (.ok (some p)) w gi0 h]
  show some (profileSection (.ok (some tok)) (.ok (some p))).1
      = some (twitterDataOfProfile p)
  simp [profileSection, hsub]

/-- Witness for C10: a found profile with empty handle and missing name
still renders, with only those fields defaulted and the stored avatar
kept. -/
theorem per_field_profile_fallback_witness :
    (twitterDataOfProfile profileW).handle = "twitter_user"
    ∧ (twitterDataOfProfile profileW).avatar = "http://a/b.png"
    ∧ resultProfile (handleCreateGradientTweet [] (.ok (some tokW))
        (.ok (some profileW)) (.error (.exc "w")))
      = some (twitterDataOfProfile profileW) :=
  ⟨(per_field_profile_fallback profileW [] (.error (.exc "w")) tokW).2.1.1
      (Or.inr rfl),
   rfl,
   (per_field_profile_fallback profileW [] (.error (.exc "w")) tokW).2.2
      rfl (by decide)⟩

/-- Claim C2 (amended): for every tool name and every arguments dict
whose `gradientIndex`, when present, is int-comparable, the dispatcher
returns a structured result — error-flagged results carry a message —
and no exception escapes.  (As stated over arbitrary argument dicts the
claim fails: a non-int-comparable `gradientIndex` raises a `TypeError`
in the range check before the handler's `try`, see the counterexample.) -/
theorem call_tool_structured_result :
    ∀ (name : String) (args : PyDict)
      (tokR : Except PyErr (Option StytchAccessToken))
      (dbL : Except PyErr (Option Profile)) (w : Except PyErr String),
      gradientIndexArgOk args = true →
      isOkB (callTool name args tokR dbL w) = true
      ∧ ∀ r, callTool name args tokR dbL w = .ok r →
          (r.isError = true → r.content ≠ []) := by
  intro name args tokR dbL w hgi
  by_cases h1 : name = "get-my-profile"
  · subst h1
    refine ⟨rfl, ?_⟩
    intro r hr hisErr
    rw [show callTool "get-my-profile" args tokR dbL w
        = .ok (handleGetMyProfile tokR) from rfl] at hr
    injection hr with hr
    subst hr
    cases tokR with
    | error e => simp [handleGetMyProfile]
    | ok o =>
      cases o with
      | none => simp [handleGetMyProfile]
      | some tok => simp [handleGetMyProfile] at hisErr
  · by_cases h2 : name = "create-gradient-tweet"
    · subst h2
      obtain ⟨gi0, h⟩ : ∃ g, pyIntLike (rawGradientArg args) = some g := by
        unfold gradientIndexArgOk at hgi
        exact Option.isSome_iff_exists.mp hgi
      have hc : callTool "create-gradient-tweet" args tokR dbL w
          = .ok (tweetResult args tokR dbL w gi0) := by
        show handleCreateGradientTweet args tokR dbL w = _
        exact handleCGT_eq_ok args tokR dbL w gi0 h
      rw [hc]
      refine ⟨rfl, ?_⟩
      intro r hr hisErr
      injection hr with hr
      subst hr
      exact absurd hisErr (by simp [tweetResult])
    · have hc : callTool name args tokR dbL w
          = .ok { content := [s!"Unknown tool: {name}"],
                  structuredContent := none, isError := true } := by
        simp [callTool, h1, h2]
      rw [hc]
      refine ⟨rfl, ?_⟩
      intro r hr hisErr
      injection hr with hr
      subst hr
      simp

/-- Counterexample for C2 as stated: a string-valued `gradientIndex`
makes the range check raise a `TypeError` that escapes the dispatcher
to the transport layer. -/
theorem call_tool_structured_result_counterexample :
    callTool "create-gradient-tweet"
      [("tweetContent", JVal.str "hi"), ("gradientIndex", JVal.str "999")]
      (.ok none) (.ok none) (.error (.exc "io"))
      = .error (.typeError "comparison not supported between int and non-int") :=
  rfl

/-- Witness for C2 (amended) at a concrete well-typed call. -/
theorem call_tool_structured_result_witness :
    isOkB (callTool "create-gradient-tweet" [("gradientIndex", JVal.int 3)]
      (.ok none) (.ok none) (.error (.exc "io"))) = true :=
  (call_tool_structured_result "create-gradient-tweet"
    [("gradientIndex", JVal.int 3)] (.ok none) (.ok none)
    (.error (.exc "io")) rfl).1
